import Mathlib

/-!
Verification of the `claude-agent` chat client (`src/main.rs`).

The development shallowly embeds the data model and the control flow of the
program: the transcript of `Message`s, the neutral `LLMRequest` / `LLMResponse`
values, the interactive driver loop (`interactive_mode`), the response
handling of `ClaudeProvider::invoke`, the cost accounting, and the dispatch in
`main`.  Terminal reads and the backend HTTP call are external collaborators;
they are modelled as an input line fed to each loop iteration and an `Invoke`
function returning `Except String LLMResponse`.  The `u32` running totals are
modelled as `Nat` with explicit reduction modulo `2^32` at each unchecked
addition, and the `f64` cost arithmetic is modelled over `ℚ`.
-/

/-- `Message` from `src/main.rs`: a `(role, content)` pair of strings. -/
structure Message where
  role : String
  content : String
deriving DecidableEq, Repr

/-- `LLMRequest` from `src/main.rs`: a system prompt plus the transcript. -/
structure LLMRequest where
  system_prompt : String
  messages : List Message
deriving DecidableEq, Repr

/-- `LLMResponse` from `src/main.rs`: reply text plus the two `u32` token
counts (modelled as `Nat`; a deserialized `u32` is always `< 2^32`). -/
structure LLMResponse where
  content : String
  input_tokens : Nat
  output_tokens : Nat
deriving DecidableEq, Repr

/-- The modulus of Rust's `u32`. -/
def U32_MOD : Nat := 4294967296

/-- The driver-local mutable state of `interactive_mode`: the transcript
`messages` and the two running `u32` totals. -/
structure SessionState where
  messages : List Message
  total_input_tokens : Nat
  total_output_tokens : Nat
deriving DecidableEq, Repr

/-- The state at the top of `interactive_mode`: empty transcript, zero totals. -/
def initState : SessionState :=
  { messages := [], total_input_tokens := 0, total_output_tokens := 0 }

/-- Rust's `char::to_ascii_lowercase`: shift exactly `A`–`Z` down by 32. -/
def charAsciiLower (c : Char) : Char :=
  if 65 ≤ c.toNat ∧ c.toNat ≤ 90 then Char.ofNat (c.toNat + 32) else c

/-- Rust's `str::eq_ignore_ascii_case`: equality after ASCII lowercasing. -/
def eqIgnoreAsciiCase (a b : String) : Bool :=
  a.data.map charAsciiLower == b.data.map charAsciiLower

/-- Rust's `str::trim`: drop leading and trailing whitespace. -/
def rustTrim (s : String) : String :=
  ⟨((s.data.dropWhile Char.isWhitespace).reverse.dropWhile Char.isWhitespace).reverse⟩

/-- Rust's `str::is_empty`. -/
def strIsEmpty (s : String) : Bool :=
  s.data.isEmpty

/-- The backend capability (`LLM::invoke`) seen from the driver: a request
either yields a complete response or a failure message. -/
def Invoke : Type := LLMRequest → Except String LLMResponse

/-- Result of one iteration of the `loop` in `interactive_mode`: either the
loop continues with a new state, or `break` was taken (exit/quit). -/
inductive StepOutcome where
  | continued (s : SessionState)
  | terminated (s : SessionState)
deriving DecidableEq, Repr

/-- One iteration of the `loop` in `interactive_mode` (src/main.rs:189-252),
given the raw line read from stdin and the backend `invoke` function:
trim the line; `continue` on empty; `break` on exit/quit (ASCII
case-insensitive); otherwise push the user message, build the request, invoke
the backend; on `Ok` push the assistant message and add the token counts to
the totals (unchecked `u32` addition, i.e. reduction mod `2^32`); on `Err`
pop the just-pushed user message and leave the totals alone. -/
def interactiveStep (system_prompt : String) (invoke : Invoke)
    (s : SessionState) (rawLine : String) : StepOutcome :=
  let input := rustTrim rawLine
  if strIsEmpty input then .continued s
  else if eqIgnoreAsciiCase input "exit" || eqIgnoreAsciiCase input "quit" then
    .terminated s
  else
    let messages := s.messages ++ [{ role := "user", content := input }]
    let request : LLMRequest := { system_prompt := system_prompt, messages := messages }
    match invoke request with
    | .ok response =>
        .continued
          { messages := messages ++ [{ role := "assistant", content := response.content }]
            total_input_tokens := (s.total_input_tokens + response.input_tokens) % U32_MOD
            total_output_tokens := (s.total_output_tokens + response.output_tokens) % U32_MOD }
    | .error _ =>
        .continued { s with messages := messages.dropLast }

/-- The state carried out of a loop iteration, whether it continued or broke. -/
def outcomeState : StepOutcome → SessionState
  | .continued s => s
  | .terminated s => s

/-- The states of `interactive_mode` observable at the top of the loop (or at
the `break`): the initial empty state, and anything produced from a reachable
state by one loop iteration on some input line. -/
inductive Reachable (system_prompt : String) (invoke : Invoke) : SessionState → Prop where
  | init : Reachable system_prompt invoke initState
  | step (s : SessionState) (line : String) : Reachable system_prompt invoke s →
      Reachable system_prompt invoke (outcomeState (interactiveStep system_prompt invoke s line))

/-- Run the interactive loop over a list of stdin lines, stopping early when
an iteration breaks (exit/quit). -/
def runLines (system_prompt : String) (invoke : Invoke) :
    SessionState → List String → SessionState
  | s, [] => s
  | s, line :: rest =>
    match interactiveStep system_prompt invoke s line with
    | .continued s' => runLines system_prompt invoke s' rest
    | .terminated s' => s'

/-- The session-summary block printed after the loop (src/main.rs:254-258). -/
def sessionSummary (s : SessionState) : List String :=
  ["--- Session Summary ---",
   "Total Input Tokens:  " ++ toString s.total_input_tokens,
   "Total Output Tokens: " ++ toString s.total_output_tokens,
   "-----------------------"]

/-- `Usage` from `src/main.rs`: the two `u32` token counts of a response body. -/
structure Usage where
  input_tokens : Nat
  output_tokens : Nat
deriving DecidableEq, Repr

/-- `ContentBlock` from `src/main.rs`: one `{text}` entry of the `content` array. -/
structure ContentBlock where
  text : String
deriving DecidableEq, Repr

/-- `NonStreamingResponse` from `src/main.rs`: the parsed 2xx response body. -/
structure NonStreamingResponse where
  content : List ContentBlock
  usage : Usage
deriving DecidableEq, Repr

/-- `reqwest::StatusCode::is_success`: the 2xx range. -/
def statusIsSuccess (status : Nat) : Bool :=
  200 ≤ status && status < 300

/-- Response handling of `ClaudeProvider::invoke` (src/main.rs:140-162) after
the HTTP exchange: `status` is the HTTP status and `body` is the result of
parsing the body as `NonStreamingResponse` (`none` = parse failure).  A
non-2xx status fails; a parse failure fails; otherwise the reply text is the
`text` of the first content block (`first().map_or(String::new(), ..)`) and
the usage counts are passed through. -/
def processResponse (status : Nat) (body : Option NonStreamingResponse) :
    Except String LLMResponse :=
  if !(statusIsSuccess status) then
    .error ("API request failed with status " ++ toString status)
  else
    match body with
    | none => .error "Failed to parse non-streaming response"
    | some parsed =>
        .ok { content := ((parsed.content.head?).map ContentBlock.text).getD ""
              input_tokens := parsed.usage.input_tokens
              output_tokens := parsed.usage.output_tokens }

/-- `input_cost_per_m` (src/main.rs:229): dollars per 1M input tokens. -/
def input_cost_per_m : ℚ := 3

/-- `output_cost_per_m` (src/main.rs:230): dollars per 1M output tokens. -/
def output_cost_per_m : ℚ := 15

/-- `turn_total_cost` (src/main.rs:232-234), with the `f64` arithmetic
modelled over `ℚ`: `(in / 1e6) * 3.00 + (out / 1e6) * 15.00`. -/
def turn_total_cost (response : LLMResponse) : ℚ :=
  (response.input_tokens : ℚ) / 1000000 * input_cost_per_m
    + (response.output_tokens : ℚ) / 1000000 * output_cost_per_m

/-- `session_total_cost` (src/main.rs:236-237), over `ℚ`, as a function of
the two running totals. -/
def session_total_cost (total_input_tokens total_output_tokens : Nat) : ℚ :=
  (total_input_tokens : ℚ) / 1000000 * input_cost_per_m
    + (total_output_tokens : ℚ) / 1000000 * output_cost_per_m

/-- The spec's formula for the turn cost, written as the spec writes it:
`input_tokens * 3.00/1e6 + output_tokens * 15.00/1e6`. -/
def specTurnCost (input_tokens output_tokens : Nat) : ℚ :=
  input_tokens * 3 / 1000000 + output_tokens * 15 / 1000000

/-- The spec's formula for the session cost:
`total_input_tokens * 3.00/1e6 + total_output_tokens * 15.00/1e6`. -/
def specSessionCost (total_input_tokens total_output_tokens : Nat) : ℚ :=
  total_input_tokens * 3 / 1000000 + total_output_tokens * 15 / 1000000

/-- `Args` from `src/main.rs`: the two parsed flags. -/
structure Args where
  message : Option String
  interactive : Bool
deriving DecidableEq, Repr

/-- The parsed value of the `-i` (`--interactive`) flag.  clap derives a
`SetTrue`-style flag for a `bool` field: giving `-i` stores `true`, and with
`default_value_t = true` its absence also yields `true`. -/
def parseInteractiveFlag (givenOnCommandLine : Bool) : Bool :=
  if givenOnCommandLine then true else true

/-- Which mode `main` runs after construction succeeds. -/
inductive Mode where
  | interactiveMode
  | singleTurn (message : String)
deriving DecidableEq, Repr

/-- The dispatch in `main` (src/main.rs:278-292): `args.interactive` is
tested first; only when it is `false` and a message is present does the
single-turn branch run; otherwise interactive mode runs. -/
def dispatch (args : Args) : Mode :=
  if args.interactive then .interactiveMode
  else
    match args.message with
    | some message => .singleTurn message
    | none => .interactiveMode

/-- The hardcoded system prompt in `main` (src/main.rs:270). -/
def defaultSystemPrompt : String := "You are a helpful AI assistant."

/-- The single-turn branch of `main` (src/main.rs:280-288): build a
one-message transcript, invoke once, and return the `(stdout, stderr)` lines
it prints — the reply on success, `Error: ..` on failure. -/
def singleTurnRun (message : String) (invoke : Invoke) : List String × List String :=
  match invoke { system_prompt := defaultSystemPrompt
                 messages := [{ role := "user", content := message }] } with
  | .ok response => ([response.content], [])
  | .error e => ([], ["Error: " ++ e])

/-- Process exit status as seen by the shell. -/
inductive ExitStatus where
  | success
  | failure
deriving DecidableEq, Repr

/-- `main` (src/main.rs:263-294), abstracted over the result of
`ClaudeProvider::new` and the backend: a construction error propagates via
`?` and exits non-zero; otherwise every mode runs to `Ok(())` and the process
exits 0 (per-turn backend errors are only printed).  Stdin reads are modelled
as always succeeding.  Returns the exit status and the stderr lines of the
single-turn branch. -/
def runMain (constructionResult : Except String Unit) (args : Args)
    (invoke : Invoke) : ExitStatus × List String :=
  match constructionResult with
  | .error e => (.failure, ["Error: " ++ e])
  | .ok _ =>
      match dispatch args with
      | .interactiveMode => (.success, [])
      | .singleTurn message => (.success, (singleTurnRun message invoke).2)

/-- A transcript made of complete turns: a sequence of (user, assistant)
pairs.  This is the shape of the transcript at every point where the loop of
`interactive_mode` returns to reading input. -/
def wfTranscript : List Message → Bool
  | [] => true
  | [_] => false
  | u :: a :: rest => u.role == "user" && a.role == "assistant" && wfTranscript rest

/-- The role a strictly alternating transcript starting with "user" has at
position `i`. -/
def roleAt (i : Nat) : String :=
  if i % 2 = 0 then "user" else "assistant"

/-- Case analysis on one loop iteration: either the state comes out unchanged
(empty input, exit/quit, or backend failure after the user message is popped
again), or the invocation succeeded and the state gained the (user,
assistant) pair with the totals bumped modulo `2^32`. -/
lemma interactiveStep_cases (system_prompt : String) (invoke : Invoke)
    (s : SessionState) (rawLine : String) :
    outcomeState (interactiveStep system_prompt invoke s rawLine) = s ∨
    ∃ response,
      invoke (LLMRequest.mk system_prompt
          (s.messages ++ [Message.mk "user" (rustTrim rawLine)])) = .ok response ∧
      strIsEmpty (rustTrim rawLine) = false ∧
      outcomeState (interactiveStep system_prompt invoke s rawLine) =
        { messages := s.messages ++ [{ role := "user", content := rustTrim rawLine },
                                     { role := "assistant", content := response.content }]
          total_input_tokens := (s.total_input_tokens + response.input_tokens) % U32_MOD
          total_output_tokens := (s.total_output_tokens + response.output_tokens) % U32_MOD } := by
  unfold interactiveStep
  by_cases h1 : strIsEmpty (rustTrim rawLine) = true
  · left; simp [h1, outcomeState]
  · by_cases h2 : (eqIgnoreAsciiCase (rustTrim rawLine) "exit"
        || eqIgnoreAsciiCase (rustTrim rawLine) "quit") = true
    · left; simp [h1, h2, outcomeState]
    · rcases hres : invoke (LLMRequest.mk system_prompt
          (s.messages ++ [Message.mk "user" (rustTrim rawLine)])) with e | r
      · left
        simp [h1, h2, hres, outcomeState, List.dropLast_concat]
      · right
        refine ⟨r, rfl, by simpa using h1, ?_⟩
        simp [h1, h2, hres, outcomeState]

/-- Appending one complete (user, assistant) turn preserves transcript
well-formedness. -/
lemma wfTranscript_append (l : List Message) (c c' : String)
    (h : wfTranscript l = true) :
    wfTranscript (l ++ [{ role := "user", content := c },
                        { role := "assistant", content := c' }]) = true := by
  induction l using wfTranscript.induct with
  | case1 => simp [wfTranscript]
  | case2 x => simp [wfTranscript] at h
  | case3 u a rest ih =>
      simp only [wfTranscript, Bool.and_eq_true, beq_iff_eq] at h
      simp only [List.cons_append, wfTranscript, Bool.and_eq_true, beq_iff_eq]
      exact ⟨⟨h.1.1, h.1.2⟩, ih h.2⟩

/-- Every reachable state of the interactive loop has a transcript of
complete (user, assistant) turns. -/
lemma reachable_wf {system_prompt : String} {invoke : Invoke} {s : SessionState}
    (h : Reachable system_prompt invoke s) : wfTranscript s.messages = true := by
  induction h with
  | init => rfl
  | step s line _ ih =>
      rcases interactiveStep_cases system_prompt invoke s line with heq | ⟨r, _, _, heq⟩
      · rw [heq]; exact ih
      · rw [heq]; exact wfTranscript_append _ _ _ ih

/-- In a well-formed transcript the role at index `i` is "user" at even
positions and "assistant" at odd ones. -/
lemma wfTranscript_roleAt (l : List Message) (h : wfTranscript l = true) :
    ∀ i, i < l.length → (l.getD i { role := "", content := "" }).role = roleAt i := by
  induction l using wfTranscript.induct with
  | case1 => intro i hi; simp at hi
  | case2 x => simp [wfTranscript] at h
  | case3 u a rest ih =>
      simp only [wfTranscript, Bool.and_eq_true, beq_iff_eq] at h
      intro i hi
      match i with
      | 0 => simpa [roleAt] using h.1.1
      | 1 => simpa [roleAt] using h.1.2
      | (i + 2) =>
          have hrec := ih h.2 i (by simpa [Nat.succ_lt_succ_iff] using hi)
          simpa [roleAt, List.getD, Nat.add_mod_right] using hrec

/-- A line that matches `exit` or `quit` case-insensitively is not empty, so
the empty-line `continue` is not taken for it. -/
lemma exitquit_nonempty {t : String}
    (h : eqIgnoreAsciiCase t "exit" = true ∨ eqIgnoreAsciiCase t "quit" = true) :
    strIsEmpty t = false := by
  rcases h with h | h <;>
  · unfold eqIgnoreAsciiCase at h
    cases ht : t.data with
    | nil => rw [ht] at h; exact absurd h (by decide)
    | cons x xs => simp [strIsEmpty, ht]

/-- A string whose character list is non-empty is not the empty string. -/
lemma ne_empty_of_strIsEmpty_false {t : String} (h : strIsEmpty t = false) :
    t ≠ "" := by
  intro he
  rw [he] at h
  exact absurd h (by decide)

/-- A backend that always fails, such as one behind a dead network. -/
def failInvoke : Invoke := fun _ => .error "API request failed with status 500: oops"

/-- A backend that always replies `yo` with 10 input and 3 output tokens. -/
def okInvoke : Invoke := fun _ => .ok { content := "yo", input_tokens := 10, output_tokens := 3 }

/-- A mid-session state: one complete turn in the transcript, some totals. -/
def preState : SessionState :=
  { messages := [{ role := "user", content := "a" }, { role := "assistant", content := "b" }],
    total_input_tokens := 7, total_output_tokens := 9 }

/-- C1: if the backend invocation for a turn fails, the loop iteration leaves
the session state exactly as it was before the turn: the just-appended user
message is popped again and the token totals are untouched. -/
theorem c1_failure_atomicity (system_prompt : String) (invoke : Invoke)
    (s : SessionState) (rawLine e : String)
    (hne : strIsEmpty (rustTrim rawLine) = false)
    (hexit : eqIgnoreAsciiCase (rustTrim rawLine) "exit" = false)
    (hquit : eqIgnoreAsciiCase (rustTrim rawLine) "quit" = false)
    (herr : invoke (LLMRequest.mk system_prompt
        (s.messages ++ [Message.mk "user" (rustTrim rawLine)])) = .error e) :
    interactiveStep system_prompt invoke s rawLine = .continued s := by
  unfold interactiveStep
  simp [hne, hexit, hquit, herr, List.dropLast_concat]

/-- C1 witness: a failing backend invocation on the line `hello` from a
mid-session state gives back exactly that state. -/
theorem c1_failure_atomicity_witness :
    interactiveStep "sp" failInvoke preState "hello" = .continued preState :=
  c1_failure_atomicity "sp" failInvoke preState "hello"
    "API request failed with status 500: oops" (by decide) (by decide) (by decide) rfl

/-- C2: in every reachable state of the interactive loop (initial state, or
after any iteration, whether it succeeded, failed, or broke), the transcript
roles strictly alternate starting with "user": the entry at index `i` has
role "user" for even `i` and "assistant" for odd `i`, so no two consecutive
entries share a role. -/
theorem c2_transcript_alternation (system_prompt : String) (invoke : Invoke)
    (s : SessionState) (h : Reachable system_prompt invoke s) :
    ∀ i, i < s.messages.length →
      (s.messages.getD i { role := "", content := "" }).role = roleAt i :=
  wfTranscript_roleAt s.messages (reachable_wf h)

/-- C2 witness: after one successful turn from the initial state, the entry
at index 1 has the role an alternating transcript has at index 1. -/
theorem c2_transcript_alternation_witness :
    ((outcomeState (interactiveStep "sp" okInvoke initState "hello")).messages.getD 1
        { role := "", content := "" }).role = roleAt 1 :=
  c2_transcript_alternation "sp" okInvoke
    (outcomeState (interactiveStep "sp" okInvoke initState "hello"))
    (Reachable.step initState "hello" Reachable.init) 1 (by decide)

/-- C7: a line that trims to `exit` or `quit` (ASCII case-insensitively)
breaks the loop with the state unchanged, no matter what the backend would
answer (so no request is issued), the rest of the input is never read, and
the session summary printed after the loop names both totals. -/
theorem c7_exit_quit (system_prompt : String) (s : SessionState) (rawLine : String)
    (h : eqIgnoreAsciiCase (rustTrim rawLine) "exit" = true ∨
         eqIgnoreAsciiCase (rustTrim rawLine) "quit" = true) :
    (∀ invoke : Invoke, interactiveStep system_prompt invoke s rawLine = .terminated s) ∧
    (∀ (invoke : Invoke) (rest : List String),
        runLines system_prompt invoke s (rawLine :: rest) = s) ∧
    ("Total Input Tokens:  " ++ toString s.total_input_tokens) ∈ sessionSummary s ∧
    ("Total Output Tokens: " ++ toString s.total_output_tokens) ∈ sessionSummary s := by
  have hne := exitquit_nonempty h
  have hcond : (eqIgnoreAsciiCase (rustTrim rawLine) "exit"
      || eqIgnoreAsciiCase (rustTrim rawLine) "quit") = true := by
    rcases h with h | h <;> simp [h]
  have hstep : ∀ invoke : Invoke,
      interactiveStep system_prompt invoke s rawLine = .terminated s := by
    intro invoke
    unfold interactiveStep
    simp [hne, hcond]
  refine ⟨hstep, fun invoke rest => ?_, by simp [sessionSummary], by simp [sessionSummary]⟩
  simp [runLines, hstep invoke]

/-- C7 witness: the line ` QUIT ` from a mid-session state ends the session
with the state unchanged even with a failing backend, and the summary block
carries the totals. -/
theorem c7_exit_quit_witness :
    runLines "sp" failInvoke preState [" QUIT ", "more"] = preState ∧
    ("Total Input Tokens:  " ++ toString preState.total_input_tokens) ∈ sessionSummary preState :=
  ⟨(c7_exit_quit "sp" preState " QUIT " (Or.inr (by decide))).2.1 failInvoke ["more"],
   (c7_exit_quit "sp" preState " QUIT " (Or.inr (by decide))).2.2.1⟩

/-- C8: a line that trims to nothing makes the iteration `continue` with the
state unchanged, no matter what the backend would answer (so no request is
issued and the transcript does not grow), and running the loop on it is the
same as running the loop without it. -/
theorem c8_empty_input (system_prompt : String) (s : SessionState) (rawLine : String)
    (h : strIsEmpty (rustTrim rawLine) = true) :
    (∀ invoke : Invoke, interactiveStep system_prompt invoke s rawLine = .continued s) ∧
    (∀ (invoke : Invoke) (rest : List String),
        runLines system_prompt invoke s (rawLine :: rest) = runLines system_prompt invoke s rest) := by
  have hstep : ∀ invoke : Invoke,
      interactiveStep system_prompt invoke s rawLine = .continued s := by
    intro invoke
    unfold interactiveStep
    simp [h]
  exact ⟨hstep, fun invoke rest => by simp [runLines, hstep invoke]⟩

/-- C8 witness: a whitespace-only line from a mid-session state is skipped
even with a failing backend. -/
theorem c8_empty_input_witness :
    interactiveStep "sp" failInvoke preState "  \t " = .continued preState ∧
    runLines "sp" failInvoke preState ["  \t "] = runLines "sp" failInvoke preState [] :=
  ⟨(c8_empty_input "sp" preState "  \t " (by decide)).1 failInvoke,
   (c8_empty_input "sp" preState "  \t " (by decide)).2 failInvoke []⟩

/-- C4: on a 2xx status whose body parses, `invoke` returns `Ok` with the
reply text equal to the `text` of the first content block — the empty string
when the `content` array is empty, which is not a failure — and the usage
token counts passed through. -/
theorem c4_first_content_block (status : Nat) (parsed : NonStreamingResponse)
    (h : statusIsSuccess status = true) :
    processResponse status (some parsed) =
      .ok { content := match parsed.content with
                       | [] => ""
                       | block :: _ => block.text,
            input_tokens := parsed.usage.input_tokens,
            output_tokens := parsed.usage.output_tokens } := by
  cases hc : parsed.content <;> simp [processResponse, h, hc]

/-- C4 witness: status 200 with an empty `content` array and populated usage
yields `Ok` with the empty reply and the usage counts, not a failure. -/
theorem c4_first_content_block_witness :
    processResponse 200 (some { content := [], usage := { input_tokens := 5, output_tokens := 7 } }) =
      .ok { content := "", input_tokens := 5, output_tokens := 7 } :=
  c4_first_content_block 200
    { content := [], usage := { input_tokens := 5, output_tokens := 7 } } (by decide)

/-- C5: the session cost computed by the driver equals the spec's formula
`total_input_tokens * 3.00/1e6 + total_output_tokens * 15.00/1e6`, the turn
cost equals the same formula over the turn's counts, and the unit prices are
the fixed constants 3.00 and 15.00 dollars per million tokens. -/
theorem c5_cost_identity (total_input_tokens total_output_tokens : Nat)
    (response : LLMResponse) :
    session_total_cost total_input_tokens total_output_tokens =
      specSessionCost total_input_tokens total_output_tokens ∧
    turn_total_cost response = specTurnCost response.input_tokens response.output_tokens ∧
    input_cost_per_m = 3 ∧ output_cost_per_m = 15 := by
  refine ⟨?_, ?_, rfl, rfl⟩
  · unfold session_total_cost specSessionCost input_cost_per_m output_cost_per_m
    ring
  · unfold turn_total_cost specTurnCost input_cost_per_m output_cost_per_m
    ring

/-- A backend reporting the largest `u32` input-token count on every turn. -/
def hugeInvoke : Invoke :=
  fun _ => .ok { content := "r", input_tokens := 4294967295, output_tokens := 0 }

/-- C6 counterexample: the totals are updated by unchecked `u32` addition,
which wraps modulo `2^32`; in the reachable session whose backend reports
`2^32 - 1` input tokens per turn, the second turn makes the stored
`total_input_tokens` strictly smaller than after the first turn, refuting
"the running token totals never decrease across turns". -/
theorem c6_counterexample :
    Reachable "sp" hugeInvoke
      (outcomeState (interactiveStep "sp" hugeInvoke
        (outcomeState (interactiveStep "sp" hugeInvoke initState "a")) "b")) ∧
    (outcomeState (interactiveStep "sp" hugeInvoke
        (outcomeState (interactiveStep "sp" hugeInvoke initState "a")) "b")).total_input_tokens <
      (outcomeState (interactiveStep "sp" hugeInvoke initState "a")).total_input_tokens :=
  ⟨Reachable.step _ "b" (Reachable.step initState "a" Reachable.init), by decide⟩

/-- C6 (amended): as long as each unchecked `u32` addition stays below
`2^32`, one loop iteration never decreases either running total — a
successful turn adds the response's counts and every other branch leaves the
totals exactly unchanged. -/
theorem c6_totals_monotone (system_prompt : String) (invoke : Invoke)
    (s : SessionState) (rawLine : String)
    (hbound : ∀ response,
        invoke (LLMRequest.mk system_prompt
            (s.messages ++ [Message.mk "user" (rustTrim rawLine)])) = .ok response →
        s.total_input_tokens + response.input_tokens < U32_MOD ∧
        s.total_output_tokens + response.output_tokens < U32_MOD) :
    s.total_input_tokens ≤
      (outcomeState (interactiveStep system_prompt invoke s rawLine)).total_input_tokens ∧
    s.total_output_tokens ≤
      (outcomeState (interactiveStep system_prompt invoke s rawLine)).total_output_tokens := by
  rcases interactiveStep_cases system_prompt invoke s rawLine with heq | ⟨r, hres, _, heq⟩
  · rw [heq]
    exact ⟨le_refl _, le_refl _⟩
  · rw [heq]
    obtain ⟨h1, h2⟩ := hbound r hres
    constructor
    · show s.total_input_tokens ≤ (s.total_input_tokens + r.input_tokens) % U32_MOD
      rw [Nat.mod_eq_of_lt h1]
      exact Nat.le_add_right _ _
    · show s.total_output_tokens ≤ (s.total_output_tokens + r.output_tokens) % U32_MOD
      rw [Nat.mod_eq_of_lt h2]
      exact Nat.le_add_right _ _

/-- C6 witness: a successful small turn from the initial state does not
decrease either total. -/
theorem c6_totals_monotone_witness :
    initState.total_input_tokens ≤
      (outcomeState (interactiveStep "sp" okInvoke initState "hi")).total_input_tokens ∧
    initState.total_output_tokens ≤
      (outcomeState (interactiveStep "sp" okInvoke initState "hi")).total_output_tokens :=
  c6_totals_monotone "sp" okInvoke initState "hi"
    (fun response h => by cases h; exact ⟨by decide, by decide⟩)

/-- C3 counterexample: an invocation carrying `--message "hello"` without the
interactive flag on the command line still parses `interactive` to `true`
(clap default), and `main` checks `args.interactive` first, so the program
runs interactive mode, not single-turn mode. -/
theorem c3_counterexample :
    dispatch { message := some "hello", interactive := parseInteractiveFlag false } =
      Mode.interactiveMode ∧
    dispatch { message := some "hello", interactive := parseInteractiveFlag false } ≠
      Mode.singleTurn "hello" := by
  decide

/-- C3 (amended): single-turn mode runs only when `--message` is present and
`args.interactive` is `false`; whenever `args.interactive` is `true` — which
the flag's `default_value_t = true` makes it on every command line, whether
or not `-i` is given — interactive mode runs even with `--message` present. -/
theorem c3_dispatch (args : Args) :
    (args.interactive = true → dispatch args = Mode.interactiveMode) ∧
    (args.interactive = false → dispatch args =
      (match args.message with
       | some message => Mode.singleTurn message
       | none => Mode.interactiveMode)) ∧
    parseInteractiveFlag true = true ∧ parseInteractiveFlag false = true := by
  refine ⟨fun h => by simp [dispatch, h], fun h => by simp [dispatch, h], rfl, rfl⟩

/-- C3 witness: with `interactive` forced to `false`, a present message does
run single-turn mode. -/
theorem c3_dispatch_witness :
    dispatch { message := some "hello", interactive := false } = Mode.singleTurn "hello" :=
  (c3_dispatch { message := some "hello", interactive := false }).2.1 rfl

/-- A backend replying with an empty content string (as a 2xx response whose
`content` array is empty produces, see `processResponse`). -/
def emptyReplyInvoke : Invoke :=
  fun _ => .ok { content := "", input_tokens := 1, output_tokens := 1 }

/-- C9 counterexample: one successful turn whose backend reply text is empty
(an empty `content` array) produces a reachable transcript containing an
assistant `Message` whose content is the empty string, refuting "every
Message in the transcript has ... content that is a non-empty text string". -/
theorem c9_counterexample :
    Reachable "sp" emptyReplyInvoke
      (outcomeState (interactiveStep "sp" emptyReplyInvoke initState "hello")) ∧
    (outcomeState (interactiveStep "sp" emptyReplyInvoke initState "hello")).messages =
      [{ role := "user", content := "hello" }, { role := "assistant", content := "" }] :=
  ⟨Reachable.step initState "hello" Reachable.init, by decide⟩

/-- C9 (amended): in every reachable state, every transcript entry has role
"user" or "assistant", and every user entry has non-empty content (it is a
trimmed non-empty input line); assistant entries carry the backend reply
verbatim, which may be empty. -/
theorem c9_message_wellformed (system_prompt : String) (invoke : Invoke)
    (s : SessionState) (h : Reachable system_prompt invoke s) :
    ∀ m ∈ s.messages,
      (m.role = "user" ∨ m.role = "assistant") ∧
      (m.role = "user" → m.content ≠ "") := by
  induction h with
  | init => intro m hm; exact absurd hm (List.not_mem_nil m)
  | step s line _ ih =>
      rcases interactiveStep_cases system_prompt invoke s line with heq | ⟨r, _, hne, heq⟩
      · rw [heq]; exact ih
      · rw [heq]
        intro m hm
        rcases List.mem_append.mp hm with hold | hnew
        · exact ih m hold
        · simp only [List.mem_cons, List.not_mem_nil, or_false] at hnew
          rcases hnew with h1 | h1
          · subst h1
            exact ⟨Or.inl rfl, fun _ => ne_empty_of_strIsEmpty_false hne⟩
          · subst h1
            exact ⟨Or.inr rfl, fun hr => absurd hr (show ("assistant" : String) ≠ "user" by decide)⟩

/-- C9 witness: the user entry of a successful turn from the initial state is
a user-or-assistant role with non-empty content. -/
theorem c9_message_wellformed_witness :
    ((Message.mk "user" "hello").role = "user" ∨
      (Message.mk "user" "hello").role = "assistant") ∧
    ((Message.mk "user" "hello").role = "user" → (Message.mk "user" "hello").content ≠ "") :=
  c9_message_wellformed "sp" okInvoke
    (outcomeState (interactiveStep "sp" okInvoke initState "hello"))
    (Reachable.step initState "hello" Reachable.init)
    (Message.mk "user" "hello") (by decide)

/-- A backend that always fails with the message `boom`. -/
def boomInvoke : Invoke := fun _ => .error "boom"

/-- C10: when the single-turn branch of `main` runs and the backend
invocation fails, the error is printed to stderr and `main` still returns
`Ok`, exiting 0; with construction succeeded, every path of `main` exits 0,
and only a backend-construction failure exits non-zero. -/
theorem c10_singleturn_failure (args : Args) (invoke : Invoke) (message e : String)
    (hd : dispatch args = Mode.singleTurn message)
    (he : invoke (LLMRequest.mk defaultSystemPrompt [Message.mk "user" message]) = .error e) :
    runMain (.ok ()) args invoke = (ExitStatus.success, ["Error: " ++ e]) ∧
    (∀ cerr : String, runMain (.error cerr) args invoke = (ExitStatus.failure, ["Error: " ++ cerr])) ∧
    (∀ (args' : Args) (invoke' : Invoke), (runMain (.ok ()) args' invoke').1 = ExitStatus.success) := by
  refine ⟨?_, fun cerr => rfl, fun args' invoke' => ?_⟩
  · simp [runMain, hd, singleTurnRun, he]
  · unfold runMain
    cases dispatch args' <;> rfl

/-- C10 witness: dispatched to single-turn mode with a failing backend, the
process reports `Error: boom` on stderr and exits 0. -/
theorem c10_singleturn_failure_witness :
    runMain (.ok ()) { message := some "hi", interactive := false } boomInvoke =
      (ExitStatus.success, ["Error: boom"]) :=
  (c10_singleturn_failure { message := some "hi", interactive := false } boomInvoke
    "hi" "boom" rfl rfl).1

